import Mathlib

/-!
Verification of the Kando IPC protocol (src/common/ipc) against its
natural-language specification.  The server's per-connection WebSocket
message handler, the interaction callbacks handed to the host application,
the two reference clients and the discovery-file bookkeeping are embedded
as pure Lean functions; mutable per-connection and per-server state is
passed explicitly.
-/

namespace KandoIPC

/-- Whether a hover/select event refers to a leaf item or a submenu node.
Modelled from the spec: the `InteractionTarget` enum lives in
`src/common/index.ts`, which is not part of the provided sources; the spec
and the tests use exactly the two values `eItem` and `eSubmenu`. -/
inductive InteractionTarget where
  | eItem
  | eSubmenu
deriving DecidableEq, Repr

/-- The recursive menu tree sent with a show-menu request.
Modelled from the spec: `MENU_ITEM_SCHEMA` is owned by the excluded
rendering subsystem (`src/common/settings-schemata`); the IPC layer carries
the parsed menu opaquely, so only the shape used by the tests (name, type,
icon, iconTheme, children) is reproduced here. -/
inductive MenuItem where
  | node (name itemType icon iconTheme : String) (children : List MenuItem)

/-- `IPCErrorReason` from `src/common/ipc/types.ts`. -/
inductive IPCErrorReason where
  | eNotConnected
  | eConnectionFailed
  | eMalformedRequest
  | eVersionNotSupported
  | eAlreadyObserving
  | eNotObserving
deriving DecidableEq, Repr

/-- The wire string of each `IPCErrorReason` enum member
(`src/common/ipc/types.ts`, lines 16-29). -/
def reasonString : IPCErrorReason → String
  | .eNotConnected => "not-connected"
  | .eConnectionFailed => "connection-failed"
  | .eMalformedRequest => "malformed-request"
  | .eVersionNotSupported => "version-not-supported"
  | .eAlreadyObserving => "already-observing"
  | .eNotObserving => "not-observing"

/-- Messages the server sends on a connection: the four interaction event
messages (`OpenMenuMessage`, `HoverItemMessage`, `SelectItemMessage`,
`CancelMenuMessage`) and `ErrorMessage`, from `src/common/ipc/types.ts`. -/
inductive EventMsg where
  | openMenu
  | hoverItem (target : InteractionTarget) (path : List Nat)
  | selectItem (target : InteractionTarget) (path : List Nat)
  | cancelMenu
  | error (reason : IPCErrorReason) (description : String)
deriving DecidableEq, Repr

/-- An interaction event message is any server-sent message other than an
error reply. -/
def isInteractionEvent : EventMsg → Bool
  | .error _ _ => false
  | _ => true

/-- The three request messages a client can send, post-decoding:
`SHOW_MENU_MESSAGE`, `START_OBSERVING_MESSAGE`, `STOP_OBSERVING_MESSAGE`
from `src/common/ipc/types.ts`. -/
inductive InMsg where
  | showMenu (menu : MenuItem)
  | startObserving
  | stopObserving

/-- A raw inbound frame as seen by the server's message handler
(`ipc-server.ts`, lines 214-286): `JSON.parse` either throws
(`undecodable`, carrying the exception text used as the error description),
or yields a payload that matches exactly one of the three request schemas
(`valid`), or matches none of them (`unknown`). -/
inductive RawMsg where
  | undecodable (description : String)
  | unknown
  | valid (m : InMsg)

/-- A set of interaction callbacks handed to the host application at a
registration (`ipc-server.ts`, lines 178-211).  The closure captures the
WebSocket of the connection (`conn`) and the `oneTime` flag; the mutable
`observerID` variable is shared with the connection and is therefore read
from the connection state at invocation time, not stored here. -/
structure Callbacks where
  conn : Nat
  oneTime : Bool
deriving DecidableEq, Repr

/-- Events the server emits to the host application (`IPCServerEvents` in
`ipc-server.ts`, lines 34-41). -/
inductive HostEvent where
  | showMenu (menu : MenuItem)
  | startObserving (observerID : Int) (cb : Callbacks)
  | stopObserving (observerID : Int)

/-- Result of the server's per-connection message handler for one inbound
frame: the connection's `observerID` variable and the server's
`nextObserverID` counter afterwards, the messages sent back on this
connection, the events emitted to the host application, and the callback
sets handed out (ghost data used to state trace properties). -/
structure HandleResult where
  observerID : Int
  nextID : Nat
  sent : List EventMsg
  hostEvents : List HostEvent
  issued : List Callbacks

/-- The body of `ws.on('message', ...)` in `IPCServer.handleConnection`
(`ipc-server.ts`, lines 214-286), with `startObserving`/`stopObserving`
(lines 165-212) inlined.  `conn` identifies the connection whose WebSocket
the callbacks capture, `observerID` is the connection's current observer ID
(-1 when unregistered), `nextID` is the server's `nextObserverID` counter. -/
def handleMessage (conn : Nat) (observerID : Int) (nextID : Nat) :
    RawMsg → HandleResult
  | .undecodable desc =>
      { observerID := observerID, nextID := nextID,
        sent := [.error .eMalformedRequest desc],
        hostEvents := [], issued := [] }
  | .valid (.showMenu menu) =>
      { observerID := 0, nextID := nextID, sent := [],
        hostEvents := [.showMenu menu, .startObserving 0 ⟨conn, true⟩],
        issued := [⟨conn, true⟩] }
  | .valid .startObserving =>
      if observerID ≠ -1 then
        { observerID := observerID, nextID := nextID,
          sent := [.error .eAlreadyObserving
            "Client is already registered as an observer"],
          hostEvents := [], issued := [] }
      else
        { observerID := (nextID : Int), nextID := nextID + 1, sent := [],
          hostEvents := [.startObserving (nextID : Int) ⟨conn, false⟩],
          issued := [⟨conn, false⟩] }
  | .valid .stopObserving =>
      if observerID = -1 then
        { observerID := observerID, nextID := nextID,
          sent := [.error .eNotObserving
            "Client is not registered as an observer"],
          hostEvents := [], issued := [] }
      else
        { observerID := -1, nextID := nextID, sent := [],
          hostEvents := [.stopObserving observerID], issued := [] }
  | .unknown =>
      { observerID := observerID, nextID := nextID,
        sent := [.error .eMalformedRequest "Unknown or malformed message"],
        hostEvents := [], issued := [] }

/-- The four ways the host application can invoke a callback set. -/
inductive CbAction where
  | onOpen
  | onHover (target : InteractionTarget) (path : List Nat)
  | onSelect (target : InteractionTarget) (path : List Nat)
  | onCancel

/-- Result of a callback invocation: the connection's `observerID`
afterwards, the messages sent on the connection, the host events emitted. -/
structure InvokeResult where
  observerID : Int
  sent : List EventMsg
  hostEvents : List HostEvent

/-- The callback closures created by `startObserving` in
`IPCServer.handleConnection` (`ipc-server.ts`, lines 178-211).  `onOpen`
and `onHover` just send the event message; `onSelect` and `onCancel` send
the event message and, for a one-time callback set, additionally run
`stopObserving` (emit 'stop-observing' with the connection's current
observer ID, then reset it to -1).  None of them checks whether the
connection is still registered. -/
def invokeCallback (cb : Callbacks) (observerID : Int) :
    CbAction → InvokeResult
  | .onOpen => { observerID := observerID, sent := [.openMenu], hostEvents := [] }
  | .onHover t p =>
      { observerID := observerID, sent := [.hoverItem t p], hostEvents := [] }
  | .onSelect t p =>
      if cb.oneTime then
        { observerID := -1, sent := [.selectItem t p],
          hostEvents := [.stopObserving observerID] }
      else
        { observerID := observerID, sent := [.selectItem t p], hostEvents := [] }
  | .onCancel =>
      if cb.oneTime then
        { observerID := -1, sent := [.cancelMenu],
          hostEvents := [.stopObserving observerID] }
      else
        { observerID := observerID, sent := [.cancelMenu], hostEvents := [] }

/-- Global server state: the `nextObserverID` counter (`ipc-server.ts`,
line 81, initialised to 1), the open connections with their `observerID`
variables (-1 = unregistered), and the ghost list of callback sets handed
to the host application so far. -/
structure SState where
  nextID : Nat
  conns : List (Nat × Int)
  issued : List Callbacks

/-- The observer ID of connection `c`, if `c` is open. -/
def lookupConn (conns : List (Nat × Int)) (c : Nat) : Option Int :=
  (conns.find? (fun p => p.1 = c)).map Prod.snd

/-- Overwrite the observer ID of connection `c`. -/
def setConn (conns : List (Nat × Int)) (c : Nat) (v : Int) :
    List (Nat × Int) :=
  conns.map (fun p => if p.1 = c then (c, v) else p)

/-- Remove connection `c` (socket closed). -/
def removeConn (conns : List (Nat × Int)) (c : Nat) : List (Nat × Int) :=
  conns.filter (fun p => ¬ p.1 = c)

/-- One atomic occurrence in a server run: a client connects, a frame
arrives on a connection, the host application invokes a previously issued
callback, or a socket closes. -/
inductive Step where
  | connect (c : Nat)
  | recv (c : Nat) (raw : RawMsg)
  | invoke (cb : Callbacks) (a : CbAction)
  | close (c : Nat)

/-- Small-step semantics of the server.  `connect` requires a fresh
connection id; `recv` runs `handleMessage` on an open connection; `invoke`
runs a callback set previously issued for a still-open connection (closing
a connection halts event delivery to it); `close` mirrors
`ws.on('close', ...)` (`ipc-server.ts`, lines 289-293): if the connection
was registered, a 'stop-observing' host event is synthesized.  Outputs are
the messages sent, tagged with their connection, and the host events. -/
def step (s : SState) :
    Step → Option (SState × List (Nat × EventMsg) × List HostEvent)
  | .connect c =>
      if (lookupConn s.conns c).isSome then none
      else some ({ s with conns := s.conns ++ [(c, -1)] }, [], [])
  | .recv c raw =>
      match lookupConn s.conns c with
      | none => none
      | some oid =>
          let r := handleMessage c oid s.nextID raw
          some ({ nextID := r.nextID, conns := setConn s.conns c r.observerID,
                  issued := s.issued ++ r.issued },
                r.sent.map (fun e => (c, e)), r.hostEvents)
  | .invoke cb a =>
      if cb ∈ s.issued then
        match lookupConn s.conns cb.conn with
        | none => none
        | some oid =>
            let r := invokeCallback cb oid a
            some ({ s with conns := setConn s.conns cb.conn r.observerID },
                  r.sent.map (fun e => (cb.conn, e)), r.hostEvents)
      else none
  | .close c =>
      match lookupConn s.conns c with
      | none => none
      | some oid =>
          some ({ s with conns := removeConn s.conns c }, [],
                if oid ≠ -1 then [.stopObserving oid] else [])

/-- Run a list of steps, concatenating the sent messages and host events.
The run is defined only if every step is valid. -/
def run (s : SState) :
    List Step → Option (SState × List (Nat × EventMsg) × List HostEvent)
  | [] => some (s, [], [])
  | st :: rest =>
      match step s st with
      | none => none
      | some (s', out, host) =>
          match run s' rest with
          | none => none
          | some (s'', out', host') => some (s'', out ++ out', host ++ host')

/-- The state of a freshly initialised server: counter at 1, no
connections, no callbacks issued. -/
def initState : SState := { nextID := 1, conns := [], issued := [] }

/-- The compiled-in API version of both reference clients
(`clientApiVersion = 1` in `ipc-show-menu-client.ts` and
`ipc-observer-client.ts`). -/
def clientApiVersion : Int := 1

/-- What `init()` does before the connection attempt: either the promise is
rejected with a reason and no transport object is created, or a WebSocket
transport is created toward the given URL. -/
inductive InitAction where
  | rejected (reason : IPCErrorReason)
  | connect (url : String)
deriving DecidableEq, Repr

/-- The synchronous prefix of `IPCShowMenuClient.init()`
(`ipc-show-menu-client.ts`, lines 70-80): reject with
`eVersionNotSupported` when the compiled-in client version differs from the
`serverApiVersion` passed to the constructor, before any network operation;
otherwise create the WebSocket toward the server. -/
def showMenuClientInit (serverPort : Nat) (serverApiVersion : Int) :
    InitAction :=
  if clientApiVersion ≠ serverApiVersion then .rejected .eVersionNotSupported
  else .connect ("ws://127.0.0.1:" ++ toString serverPort)

/-- The synchronous prefix of `IPCObserverClient.init()`
(`cross-websocket.ts` second document, lines 102-110): identical logic to
the show-menu client. -/
def observerClientInit (serverPort : Nat) (serverApiVersion : Int) :
    InitAction :=
  if clientApiVersion ≠ serverApiVersion then .rejected .eVersionNotSupported
  else .connect ("ws://127.0.0.1:" ++ toString serverPort)

/-- An inbound frame as seen by a client's `handleMessage`: `JSON.parse`
either throws (`undecodable`) or yields a payload that matches exactly one
of the server-sent schemas, or matches none of them (`unknownJson`). -/
inductive ClientIn where
  | undecodable
  | openMenuMsg
  | cancelMenuMsg
  | selectItemMsg (target : InteractionTarget) (path : List Nat)
  | hoverItemMsg (target : InteractionTarget) (path : List Nat)
  | errorMsg (reason : IPCErrorReason) (description : String)
  | unknownJson

/-- Events the observer client emits to its listeners
(`IPCObserverClientEvents` in `ipc-observer-client.ts`). -/
inductive ObserverEvent where
  | open
  | cancel
  | select (target : InteractionTarget) (path : List Nat)
  | hover (target : InteractionTarget) (path : List Nat)
  | error (reason : IPCErrorReason)
deriving DecidableEq, Repr

/-- Events the show-menu client emits to its listeners
(`IPCShowMenuClientEvents` in `ipc-show-menu-client.ts`); `select` and
`hover` carry only the path, the target field of the message is dropped. -/
inductive ShowMenuEvent where
  | cancel
  | select (path : List Nat)
  | hover (path : List Nat)
  | error (reason : IPCErrorReason)
deriving DecidableEq, Repr

/-- `handleMessage` of `IPCObserverClient.init()` (`cross-websocket.ts`
second document, lines 121-139).  `JSON.parse` is not guarded by a
try/catch, so undecodable data makes the handler throw (modelled as
`Except.error ()`); the if/else-if chain has no final else branch, so a
payload matching no schema emits no event at all. -/
def observerHandleMessage : ClientIn → Except Unit (List ObserverEvent)
  | .undecodable => .error ()
  | .openMenuMsg => .ok [.open]
  | .cancelMenuMsg => .ok [.cancel]
  | .selectItemMsg t p => .ok [.select t p]
  | .hoverItemMsg t p => .ok [.hover t p]
  | .errorMsg r _ => .ok [.error r]
  | .unknownJson => .ok []

/-- `handleMessage` of `IPCShowMenuClient.init()`
(`ipc-show-menu-client.ts`, lines 89-106): same structure, matching
select-item, cancel-menu, hover-item and error messages; open-menu matches
none of its schemas and is ignored like any unknown payload. -/
def showMenuHandleMessage : ClientIn → Except Unit (List ShowMenuEvent)
  | .undecodable => .error ()
  | .openMenuMsg => .ok []
  | .cancelMenuMsg => .ok [.cancel]
  | .selectItemMsg _ p => .ok [.select p]
  | .hoverItemMsg _ p => .ok [.hover p]
  | .errorMsg r _ => .ok [.error r]
  | .unknownJson => .ok []

/-- Outcome of a client's `handleError` (`ipc-show-menu-client.ts` lines
107-114 and `ipc-observer-client.ts` lines 141-148): before the connection
is established the init promise is rejected with `eConnectionFailed`;
afterwards an asynchronous error event tagged `eMalformedRequest` is
emitted. -/
inductive TransportErrorOutcome where
  | rejected (reason : IPCErrorReason)
  | emitted (reason : IPCErrorReason)
deriving DecidableEq, Repr

/-- `handleError`, identical in both clients. -/
def clientHandleError (connectionEstablished : Bool) :
    TransportErrorOutcome :=
  if connectionEstablished then .emitted .eMalformedRequest
  else .rejected .eConnectionFailed

/-- Frames a client can send to the server. -/
inductive OutFrame where
  | showMenuFrame (menu : MenuItem)
  | startObservingFrame
  | stopObservingFrame

/-- Result of a client operation that needs the transport: the error
events emitted locally and the frames actually sent. -/
structure ClientSend where
  localErrors : List IPCErrorReason
  sentFrames : List OutFrame

/-- `IPCShowMenuClient.showMenu(menu)` (`ipc-show-menu-client.ts`, lines
123-129): when `this.ws` is null, emit one local `eNotConnected` error and
return without sending; otherwise send the show-menu frame. -/
def clientShowMenu (hasTransport : Bool) (menu : MenuItem) : ClientSend :=
  if hasTransport then { localErrors := [], sentFrames := [.showMenuFrame menu] }
  else { localErrors := [.eNotConnected], sentFrames := [] }

/-- `IPCObserverClient.startObserving()` (`ipc-observer-client.ts`, lines
153-159). -/
def observerStartObserving (hasTransport : Bool) : ClientSend :=
  if hasTransport then { localErrors := [], sentFrames := [.startObservingFrame] }
  else { localErrors := [.eNotConnected], sentFrames := [] }

/-- `IPCObserverClient.stopObserving()` (`ipc-observer-client.ts`, lines
162-168). -/
def observerStopObserving (hasTransport : Bool) : ClientSend :=
  if hasTransport then { localErrors := [], sentFrames := [.stopObservingFrame] }
  else { localErrors := [.eNotConnected], sentFrames := [] }

/-- The server's API version constant (`IPCServer.cAPIVersion = 1`). -/
def cAPIVersion : Nat := 1

/-- Outcome of the server's 'listening' handler in `IPCServer.init()`:
whether the init promise resolves and which discovery record
(port, apiVersion) was written to `ipc-info.json`, if any. -/
structure ListenOutcome where
  resolved : Bool
  infoWritten : Option (Nat × Nat)
deriving DecidableEq, Repr

/-- The body of `wss.on('listening', ...)` in `IPCServer.init()`
(`ipc-server.ts`, lines 110-125): the `fs.writeFileSync` of the discovery
record is wrapped in a try/catch whose catch branch only logs, and
`resolve()` runs unconditionally afterwards. -/
def initOnListening (port : Nat) (writeSucceeds : Bool) : ListenOutcome :=
  if writeSucceeds then { resolved := true, infoWritten := some (port, cAPIVersion) }
  else { resolved := true, infoWritten := none }

/-- The connection's observer ID after the host invokes the `onHover`
callback of callback set `cb` a total of `k` times in a row. -/
def hoverIter (cb : Callbacks) (t : InteractionTarget) (p : List Nat)
    (observerID : Int) : Nat → Int
  | 0 => observerID
  | k + 1 =>
      hoverIter cb t p (invokeCallback cb observerID (.onHover t p)).observerID k

/-- The observer IDs of the persistent (non-one-time) registrations in a
host event list, in order of occurrence. -/
def persistentIDs (host : List HostEvent) : List Int :=
  host.filterMap fun e =>
    match e with
    | .startObserving id cb => if cb.oneTime then none else some id
    | _ => none

/-- The list of `k` consecutive integers starting at `start`. -/
def consecIDs (start : Nat) : Nat → List Int
  | 0 => []
  | k + 1 => (start : Int) :: consecIDs (start + 1) k

theorem persistentIDs_append (a b : List HostEvent) :
    persistentIDs (a ++ b) = persistentIDs a ++ persistentIDs b :=
  List.filterMap_append a b _

theorem consecIDs_mem_le {x : Int} : ∀ {start k : Nat},
    x ∈ consecIDs start k → (start : Int) ≤ x := by
  intro start k
  induction k generalizing start with
  | zero => intro h; simp [consecIDs] at h
  | succ k ih =>
      intro h
      simp only [consecIDs, List.mem_cons] at h
      rcases h with h | h
      · omega
      · have := ih h
        omega

theorem consecIDs_pairwise (start k : Nat) :
    (consecIDs start k).Pairwise (· < ·) := by
  induction k generalizing start with
  | zero => simp [consecIDs]
  | succ k ih =>
      simp only [consecIDs, List.pairwise_cons]
      refine ⟨fun x hx => ?_, ih (start + 1)⟩
      have := consecIDs_mem_le hx
      omega

theorem lookupConn_setConn_self (l : List (Nat × Int)) (c : Nat) (v w : Int)
    (h : lookupConn l c = some w) :
    lookupConn (setConn l c v) c = some v := by
  induction l with
  | nil => simp [lookupConn] at h
  | cons p l ih =>
      by_cases hc : p.1 = c
      · simp [lookupConn, setConn, List.find?, hc]
      · simp only [lookupConn, setConn, List.map_cons, if_neg hc,
          List.find?] at h ⊢
        rw [decide_eq_false hc] at h ⊢
        exact ih h

theorem hoverIter_const (cb : Callbacks) (t : InteractionTarget)
    (p : List Nat) (oid : Int) : ∀ k, hoverIter cb t p oid k = oid := by
  intro k
  induction k generalizing oid with
  | zero => rfl
  | succ k ih => simpa [hoverIter, invokeCallback] using ih oid

/-- Claim C1: handling an inbound message that parses as a valid show-menu
request surfaces the parsed menu to the host application's show-menu
handler and then registers the connection as the one-time observer with
observer ID 0, unconditionally in the connection's prior role (any prior
value of its observer ID variable: unregistered -1, one-time 0, or a
persistent positive ID) — a fresh show-menu request always begins a new
one-time observation scope. -/
theorem showMenu_always_registers_one_time_observer
    (c : Nat) (v : Int) (n : Nat) (m : MenuItem) :
    handleMessage c v n (.valid (.showMenu m)) =
      { observerID := 0, nextID := n, sent := [],
        hostEvents := [.showMenu m, .startObserving 0 ⟨c, true⟩],
        issued := [⟨c, true⟩] } := rfl

/-- Claim C2: for a connection currently registered as the one-time
observer (observer ID 0), invoking the one-time callback set's `onSelect`
or `onCancel` sends the corresponding select-item/cancel-menu event and
then performs the automatic stop-observing transition (observer ID becomes
-1 and the host is notified via a stop-observing event for ID 0), whereas
invoking `onHover` any number of times sends hover-item events but leaves
the one-time scope registered; consequently a start-observing request
handled afterwards (observer ID -1) succeeds with a fresh persistent
registration instead of an already-observing error. -/
theorem oneTime_select_cancel_deregister_hover_does_not
    (c n : Nat) (t t' : InteractionTarget) (p p' : List Nat) :
    invokeCallback ⟨c, true⟩ 0 (.onSelect t p) =
      { observerID := -1, sent := [.selectItem t p],
        hostEvents := [.stopObserving 0] }
  ∧ invokeCallback ⟨c, true⟩ 0 .onCancel =
      { observerID := -1, sent := [.cancelMenu],
        hostEvents := [.stopObserving 0] }
  ∧ invokeCallback ⟨c, true⟩ 0 (.onHover t' p') =
      { observerID := 0, sent := [.hoverItem t' p'], hostEvents := [] }
  ∧ (∀ k, hoverIter ⟨c, true⟩ t' p' 0 k = 0)
  ∧ handleMessage c (-1) n (.valid .startObserving) =
      { observerID := (n : Int), nextID := n + 1, sent := [],
        hostEvents := [.startObserving (n : Int) ⟨c, false⟩],
        issued := [⟨c, false⟩] } :=
  ⟨rfl, rfl, rfl, hoverIter_const _ _ _ _, rfl⟩

/-- Claim C7: a client (show-menu or observer) constructed with a
serverApiVersion different from the compiled-in client API version 1 has
`init()` fail with version-not-supported before any network operation: the
resulting action is a rejection, so no transport object is created. -/
theorem version_mismatch_rejected_before_connecting
    (port : Nat) (v : Int) (hv : v ≠ 1) :
    showMenuClientInit port v = .rejected .eVersionNotSupported
  ∧ observerClientInit port v = .rejected .eVersionNotSupported := by
  have h1 : clientApiVersion ≠ v := by
    simp only [clientApiVersion]
    omega
  constructor <;> simp [showMenuClientInit, observerClientInit, h1]

theorem version_mismatch_rejected_before_connecting_witness :
    (999 : Int) ≠ 1
  ∧ (showMenuClientInit 12345 999 = .rejected .eVersionNotSupported
      ∧ observerClientInit 12345 999 = .rejected .eVersionNotSupported) :=
  ⟨by decide, version_mismatch_rejected_before_connecting 12345 999 (by decide)⟩

/-- Claim C8 counterexample: after the connection is established, a
malformed inbound message does not produce a malformed-request error
event.  At the concrete input of a JSON payload matching no schema, both
clients' message handlers emit no event at all, and at the concrete input
of undecodable data, both handlers throw from `JSON.parse` (a fault that
unwinds the caller), contradicting the claim that every malformed inbound
message yields an asynchronous MalformedRequest error event and never a
thrown fault. -/
theorem malformed_after_connect_no_error_event :
    observerHandleMessage .unknownJson = .ok []
  ∧ observerHandleMessage .undecodable = .error ()
  ∧ showMenuHandleMessage .unknownJson = .ok []
  ∧ showMenuHandleMessage .undecodable = .error () := ⟨rfl, rfl, rfl, rfl⟩

/-- Claim C8 (amended): after the connection is established, inbound data
that decodes to JSON matching no known schema is silently ignored (no
event), and undecodable inbound data makes the message handler throw from
`JSON.parse`; a MalformedRequest error event is produced for a server
error message carrying that reason and for any post-establishment
transport-level error, while a pre-establishment transport error rejects
the init promise with connection-failed. -/
theorem malformed_after_connect_behaviour (r : IPCErrorReason) (d : String) :
    observerHandleMessage .unknownJson = .ok []
  ∧ observerHandleMessage .undecodable = .error ()
  ∧ showMenuHandleMessage .unknownJson = .ok []
  ∧ showMenuHandleMessage .undecodable = .error ()
  ∧ observerHandleMessage (.errorMsg r d) = .ok [.error r]
  ∧ showMenuHandleMessage (.errorMsg r d) = .ok [.error r]
  ∧ clientHandleError true = .emitted .eMalformedRequest
  ∧ clientHandleError false = .rejected .eConnectionFailed :=
  ⟨rfl, rfl, rfl, rfl, rfl, rfl, rfl, rfl⟩

/-- Claim C9: each client operation that needs the transport — showMenu on
the show-menu client, startObserving and stopObserving on the observer
client — emits exactly one local not-connected error event and sends
nothing when the transport is absent (the request is not queued), and
sends exactly the corresponding frame with no local error when the
transport is present. -/
theorem not_connected_local_error_no_send (m : MenuItem) :
    clientShowMenu false m =
      { localErrors := [.eNotConnected], sentFrames := [] }
  ∧ observerStartObserving false =
      { localErrors := [.eNotConnected], sentFrames := [] }
  ∧ observerStopObserving false =
      { localErrors := [.eNotConnected], sentFrames := [] }
  ∧ clientShowMenu true m =
      { localErrors := [], sentFrames := [.showMenuFrame m] }
  ∧ observerStartObserving true =
      { localErrors := [], sentFrames := [.startObservingFrame] }
  ∧ observerStopObserving true =
      { localErrors := [], sentFrames := [.stopObservingFrame] } :=
  ⟨rfl, rfl, rfl, rfl, rfl, rfl⟩

theorem handleMessage_sent_error (c : Nat) (oid : Int) (n : Nat)
    (raw : RawMsg) :
    ∀ e ∈ (handleMessage c oid n raw).sent, isInteractionEvent e = false := by
  intro e he
  cases raw with
  | undecodable d =>
      simp only [handleMessage, List.mem_singleton] at he
      subst he; rfl
  | unknown =>
      simp only [handleMessage, List.mem_singleton] at he
      subst he; rfl
  | valid m =>
      cases m with
      | showMenu menu => simp [handleMessage] at he
      | startObserving =>
          simp only [handleMessage] at he
          split at he <;>
            simp only [List.mem_singleton, List.not_mem_nil] at he
          subst he; rfl
      | stopObserving =>
          simp only [handleMessage] at he
          split at he <;>
            simp only [List.mem_singleton, List.not_mem_nil] at he
          subst he; rfl

/-- Whether a step is the invocation of a callback set that was issued for
connection `c` and belongs to the given issued list. -/
def sentViaIssuedCallback (st : Step) (c : Nat)
    (issued : List Callbacks) : Prop :=
  match st with
  | .invoke cb _ => cb.conn = c ∧ cb ∈ issued
  | _ => False

/-- The concrete menu used by the counterexample traces. -/
def sampleMenu : MenuItem := .node "TestMenu" "submenu" "icon" "iconTheme" []

/-- A trace in which connection 0 sends a valid show-menu request (becoming
the one-time observer with ID 0) and then a stop-observing request
(returning to unregistered). -/
def c3Trace : List Step :=
  [.connect 0, .recv 0 (.valid (.showMenu sampleMenu)),
   .recv 0 (.valid .stopObserving)]

/-- The server state reached by `c3Trace`: connection 0 is open and
unregistered, and the one-time callback set issued at the show-menu
registration is still held by the host application. -/
def c3State : SState :=
  { nextID := 1, conns := [(0, -1)], issued := [⟨0, true⟩] }

/-- Claim C3 counterexample: the state `c3State` is reachable (via
`c3Trace`: connection 0 registered through show-menu and then deregistered
through stop-observing), connection 0 is unregistered in it (observer ID
-1), and yet the host application invoking the `onOpen` callback of the
formerly issued one-time callback set makes the server send the open-menu
interaction event message on connection 0 — refuting the claim that no
event message is ever sent to a connection that is not currently
registered. -/
theorem open_menu_sent_to_unregistered_connection :
    run initState c3Trace =
      some (c3State, [],
        [.showMenu sampleMenu, .startObserving 0 ⟨0, true⟩,
         .stopObserving 0])
  ∧ lookupConn c3State.conns 0 = some (-1)
  ∧ step c3State (.invoke ⟨0, true⟩ .onOpen) =
      some (c3State, [(0, .openMenu)], []) := ⟨rfl, rfl, rfl⟩

/-- Claim C3 (amended): the server sends an interaction event message
(open-menu, hover-item, select-item, cancel-menu) on a connection only as
the result of the host application invoking a callback set the server
issued for that connection (message handling itself only ever sends error
replies); however, the callbacks remain functional after a stop-observing
transition — an invocation sends the event message regardless of the
connection's current observer ID — so no event reaches a formerly observing
connection only if the host application stops invoking its callbacks once
notified via stop-observing. -/
theorem interaction_events_only_via_issued_callbacks
    (s : SState) (st : Step) (s' : SState) (out : List (Nat × EventMsg))
    (host : List HostEvent) (c : Nat) (e : EventMsg)
    (cb : Callbacks) (oid : Int)
    (h : step s st = some (s', out, host))
    (hmem : (c, e) ∈ out) (hint : isInteractionEvent e = true) :
    sentViaIssuedCallback st c s.issued
  ∧ (invokeCallback cb oid .onOpen).sent = [.openMenu]
  ∧ ((invokeCallback cb oid .onCancel).sent = [.cancelMenu]) := by
  refine ⟨?_, rfl, ?_⟩
  · cases st with
    | connect c' =>
        simp only [step] at h
        split at h
        · exact absurd h (by simp)
        · simp only [Option.some.injEq, Prod.mk.injEq] at h
          obtain ⟨-, hout, -⟩ := h
          rw [← hout] at hmem
          simp at hmem
    | recv c' raw =>
        simp only [step] at h
        cases hl : lookupConn s.conns c' with
        | none => rw [hl] at h; exact absurd h (by simp)
        | some oid' =>
            rw [hl] at h
            simp only [Option.some.injEq, Prod.mk.injEq] at h
            obtain ⟨-, hout, -⟩ := h
            rw [← hout] at hmem
            obtain ⟨e', he', heq⟩ := List.mem_map.mp hmem
            have := handleMessage_sent_error c' oid' s.nextID raw e' he'
            obtain ⟨-, rfl⟩ := Prod.mk.injEq .. ▸ heq
            rw [hint] at this
            exact absurd this (by simp)
    | invoke cb' a =>
        simp only [step] at h
        by_cases hcb : cb' ∈ s.issued
        · rw [if_pos hcb] at h
          cases hl : lookupConn s.conns cb'.conn with
          | none => rw [hl] at h; exact absurd h (by simp)
          | some oid' =>
              rw [hl] at h
              simp only [Option.some.injEq, Prod.mk.injEq] at h
              obtain ⟨-, hout, -⟩ := h
              rw [← hout] at hmem
              obtain ⟨e', -, heq⟩ := List.mem_map.mp hmem
              obtain ⟨hc, -⟩ := Prod.mk.injEq .. ▸ heq
              exact ⟨hc, hcb⟩
        · rw [if_neg hcb] at h
          exact absurd h (by simp)
    | close c' =>
        simp only [step] at h
        cases hl : lookupConn s.conns c' with
        | none => rw [hl] at h; exact absurd h (by simp)
        | some oid' =>
            rw [hl] at h
            simp only [Option.some.injEq, Prod.mk.injEq] at h
            obtain ⟨-, hout, -⟩ := h
            rw [← hout] at hmem
            simp at hmem
  · by_cases hone : cb.oneTime <;> simp [invokeCallback, hone]

theorem interaction_events_only_via_issued_callbacks_witness :
    sentViaIssuedCallback (.invoke ⟨0, true⟩ .onOpen) 0 c3State.issued
  ∧ (invokeCallback ⟨0, true⟩ (-1) .onOpen).sent = [.openMenu]
  ∧ ((invokeCallback ⟨0, true⟩ (-1) .onCancel).sent = [.cancelMenu]) :=
  interaction_events_only_via_issued_callbacks c3State
    (.invoke ⟨0, true⟩ .onOpen) c3State [(0, .openMenu)] [] 0 .openMenu
    ⟨0, true⟩ (-1) rfl (by simp) rfl

/-- Claim C4: a start-observing request received while the connection is
already observing (observer ID different from -1: one-time 0 or a
persistent positive ID) is answered with a single already-observing error
reply, and a stop-observing request received while unregistered (observer
ID -1) with a single not-observing error reply; in both cases the
connection's role and observer ID are unchanged, the host application
receives no event, the observer-ID counter is not altered, and at the
trace level the connection stays open with the same observer ID. -/
theorem state_conflict_error_replies
    (c : Nat) (v : Int) (n : Nat) (s : SState)
    (hv : v ≠ -1) (hs : lookupConn s.conns c = some v) :
    handleMessage c v n (.valid .startObserving) =
      { observerID := v, nextID := n,
        sent := [.error .eAlreadyObserving
          "Client is already registered as an observer"],
        hostEvents := [], issued := [] }
  ∧ handleMessage c (-1) n (.valid .stopObserving) =
      { observerID := -1, nextID := n,
        sent := [.error .eNotObserving
          "Client is not registered as an observer"],
        hostEvents := [], issued := [] }
  ∧ step s (.recv c (.valid .startObserving)) =
      some ({ nextID := s.nextID, conns := setConn s.conns c v,
              issued := s.issued },
            [(c, .error .eAlreadyObserving
               "Client is already registered as an observer")], [])
  ∧ lookupConn (setConn s.conns c v) c = some v := by
  refine ⟨?_, rfl, ?_, lookupConn_setConn_self _ _ _ _ hs⟩
  · simp [handleMessage, hv]
  · simp [step, hs, handleMessage, hv]

theorem state_conflict_error_replies_witness :
    (5 : Int) ≠ -1
  ∧ (handleMessage 0 5 3 (.valid .startObserving) =
      { observerID := 5, nextID := 3,
        sent := [.error .eAlreadyObserving
          "Client is already registered as an observer"],
        hostEvents := [], issued := [] }
  ∧ handleMessage 0 (-1) 3 (.valid .stopObserving) =
      { observerID := -1, nextID := 3,
        sent := [.error .eNotObserving
          "Client is not registered as an observer"],
        hostEvents := [], issued := [] }
  ∧ step { nextID := 3, conns := [(0, 5)], issued := [] }
      (.recv 0 (.valid .startObserving)) =
      some ({ nextID := 3, conns := setConn [(0, 5)] 0 5, issued := [] },
            [(0, .error .eAlreadyObserving
               "Client is already registered as an observer")], [])
  ∧ lookupConn (setConn [(0, 5)] 0 5) 0 = some 5) :=
  ⟨by decide,
   state_conflict_error_replies 0 5 3
     { nextID := 3, conns := [(0, 5)], issued := [] } (by decide) rfl⟩

/-- Claim C5: an inbound frame that fails JSON decoding, or decodes to a
payload matching none of the known message tags, is answered with exactly
one malformed-request error reply and nothing else: the connection's role
and observer ID are unchanged, the host application receives no event, and
at the trace level the connection stays open with the same observer ID
(the server never closes a connection because of a malformed message). -/
theorem malformed_message_single_error_reply
    (c : Nat) (v : Int) (n : Nat) (d : String) (s : SState)
    (hs : lookupConn s.conns c = some v) :
    handleMessage c v n (.undecodable d) =
      { observerID := v, nextID := n,
        sent := [.error .eMalformedRequest d],
        hostEvents := [], issued := [] }
  ∧ handleMessage c v n .unknown =
      { observerID := v, nextID := n,
        sent := [.error .eMalformedRequest "Unknown or malformed message"],
        hostEvents := [], issued := [] }
  ∧ step s (.recv c (.undecodable d)) =
      some ({ nextID := s.nextID, conns := setConn s.conns c v,
              issued := s.issued },
            [(c, .error .eMalformedRequest d)], [])
  ∧ step s (.recv c .unknown) =
      some ({ nextID := s.nextID, conns := setConn s.conns c v,
              issued := s.issued },
            [(c, .error .eMalformedRequest "Unknown or malformed message")],
            [])
  ∧ lookupConn (setConn s.conns c v) c = some v := by
  refine ⟨rfl, rfl, ?_, ?_, lookupConn_setConn_self _ _ _ _ hs⟩ <;>
    simp [step, hs, handleMessage]

theorem malformed_message_single_error_reply_witness :
    handleMessage 7 (-1) 1 (.undecodable "SyntaxError") =
      { observerID := -1, nextID := 1,
        sent := [.error .eMalformedRequest "SyntaxError"],
        hostEvents := [], issued := [] }
  ∧ handleMessage 7 (-1) 1 .unknown =
      { observerID := -1, nextID := 1,
        sent := [.error .eMalformedRequest "Unknown or malformed message"],
        hostEvents := [], issued := [] }
  ∧ step { nextID := 1, conns := [(7, -1)], issued := [] }
      (.recv 7 (.undecodable "SyntaxError")) =
      some ({ nextID := 1, conns := setConn [(7, -1)] 7 (-1), issued := [] },
            [(7, .error .eMalformedRequest "SyntaxError")], [])
  ∧ step { nextID := 1, conns := [(7, -1)], issued := [] }
      (.recv 7 .unknown) =
      some ({ nextID := 1, conns := setConn [(7, -1)] 7 (-1), issued := [] },
            [(7, .error .eMalformedRequest "Unknown or malformed message")],
            [])
  ∧ lookupConn (setConn [(7, -1)] 7 (-1)) 7 = some (-1) :=
  malformed_message_single_error_reply 7 (-1) 1 "SyntaxError"
    { nextID := 1, conns := [(7, -1)], issued := [] } rfl

theorem handleMessage_host_events (c : Nat) (oid : Int) (n : Nat)
    (raw : RawMsg) (hn : 1 ≤ n) :
    ((persistentIDs (handleMessage c oid n raw).hostEvents = []
        ∧ (handleMessage c oid n raw).nextID = n)
      ∨ (persistentIDs (handleMessage c oid n raw).hostEvents = [(n : Int)]
          ∧ (handleMessage c oid n raw).nextID = n + 1))
  ∧ (∀ id cb, HostEvent.startObserving id cb ∈
        (handleMessage c oid n raw).hostEvents →
      (cb.oneTime = true ↔ id = 0)) := by
  cases raw with
  | undecodable d =>
      refine ⟨Or.inl ⟨rfl, rfl⟩, ?_⟩
      intro id cb hmem
      simp [handleMessage] at hmem
  | unknown =>
      refine ⟨Or.inl ⟨rfl, rfl⟩, ?_⟩
      intro id cb hmem
      simp [handleMessage] at hmem
  | valid m =>
      cases m with
      | showMenu menu =>
          refine ⟨Or.inl ⟨rfl, rfl⟩, ?_⟩
          intro id cb hmem
          simp only [handleMessage, List.mem_cons, List.mem_singleton,
            List.not_mem_nil, or_false] at hmem
          rcases hmem with hmem | hmem
          · exact absurd hmem (by simp)
          · injection hmem with h1 h2
            subst h1; subst h2
            simp
      | startObserving =>
          simp only [handleMessage]
          split
          · refine ⟨Or.inl ⟨rfl, rfl⟩, ?_⟩
            intro id cb hmem
            simp at hmem
          · refine ⟨Or.inr ⟨rfl, rfl⟩, ?_⟩
            intro id cb hmem
            simp only [List.mem_singleton] at hmem
            injection hmem with h1 h2
            subst h1; subst h2
            simp only [show (Callbacks.mk c false).oneTime = false from rfl,
              Bool.false_eq_true, false_iff]
            omega
      | stopObserving =>
          simp only [handleMessage]
          split
          · refine ⟨Or.inl ⟨rfl, rfl⟩, ?_⟩
            intro id cb hmem
            simp at hmem
          · refine ⟨Or.inl ⟨rfl, rfl⟩, ?_⟩
            intro id cb hmem
            simp at hmem

theorem invokeCallback_host_events (cb : Callbacks) (oid : Int)
    (a : CbAction) :
    persistentIDs (invokeCallback cb oid a).hostEvents = []
  ∧ (∀ id cb', HostEvent.startObserving id cb' ∈
        (invokeCallback cb oid a).hostEvents → False) := by
  cases a with
  | onOpen =>
      exact ⟨rfl, by intro id cb' hmem; simp [invokeCallback] at hmem⟩
  | onHover t p =>
      exact ⟨rfl, by intro id cb' hmem; simp [invokeCallback] at hmem⟩
  | onSelect t p =>
      simp only [invokeCallback]
      split
      · exact ⟨rfl, by intro id cb' hmem; simp at hmem⟩
      · exact ⟨rfl, by intro id cb' hmem; simp at hmem⟩
  | onCancel =>
      simp only [invokeCallback]
      split
      · exact ⟨rfl, by intro id cb' hmem; simp at hmem⟩
      · exact ⟨rfl, by intro id cb' hmem; simp at hmem⟩

theorem step_host_events (s0 : SState) (st : Step) (s1 : SState)
    (out1 : List (Nat × EventMsg)) (host1 : List HostEvent)
    (hn : 1 ≤ s0.nextID)
    (h : step s0 st = some (s1, out1, host1)) :
    ((persistentIDs host1 = [] ∧ s1.nextID = s0.nextID)
      ∨ (persistentIDs host1 = [(s0.nextID : Int)]
          ∧ s1.nextID = s0.nextID + 1))
  ∧ (∀ id cb, HostEvent.startObserving id cb ∈ host1 →
      (cb.oneTime = true ↔ id = 0)) := by
  cases st with
  | connect c =>
      simp only [step] at h
      split at h
      · exact absurd h (by simp)
      · simp only [Option.some.injEq, Prod.mk.injEq] at h
        obtain ⟨hs, -, hh⟩ := h
        subst hh; subst hs
        exact ⟨Or.inl ⟨rfl, rfl⟩, by intro id cb hmem; simp at hmem⟩
  | recv c raw =>
      simp only [step] at h
      cases hl : lookupConn s0.conns c with
      | none => rw [hl] at h; exact absurd h (by simp)
      | some oid =>
          rw [hl] at h
          simp only [Option.some.injEq, Prod.mk.injEq] at h
          obtain ⟨hs, -, hh⟩ := h
          subst hh; subst hs
          exact handleMessage_host_events c oid s0.nextID raw hn
  | invoke cb a =>
      simp only [step] at h
      by_cases hcb : cb ∈ s0.issued
      · rw [if_pos hcb] at h
        cases hl : lookupConn s0.conns cb.conn with
        | none => rw [hl] at h; exact absurd h (by simp)
        | some oid =>
            rw [hl] at h
            simp only [Option.some.injEq, Prod.mk.injEq] at h
            obtain ⟨hs, -, hh⟩ := h
            subst hh; subst hs
            obtain ⟨h1, h2⟩ := invokeCallback_host_events cb oid a
            exact ⟨Or.inl ⟨h1, rfl⟩, fun id cb' hmem => (h2 id cb' hmem).elim⟩
      · rw [if_neg hcb] at h
        exact absurd h (by simp)
  | close c =>
      simp only [step] at h
      cases hl : lookupConn s0.conns c with
      | none => rw [hl] at h; exact absurd h (by simp)
      | some oid =>
          rw [hl] at h
          simp only [Option.some.injEq, Prod.mk.injEq] at h
          obtain ⟨hs, -, hh⟩ := h
          subst hh; subst hs
          by_cases ho : oid ≠ -1
          · rw [if_pos ho]
            exact ⟨Or.inl ⟨rfl, rfl⟩, by intro id cb hmem; simp at hmem⟩
          · rw [if_neg ho]
            exact ⟨Or.inl ⟨rfl, rfl⟩, by intro id cb hmem; simp at hmem⟩

theorem run_persistent_general (steps : List Step) :
    ∀ (s0 s : SState) (out : List (Nat × EventMsg)) (host : List HostEvent),
    1 ≤ s0.nextID →
    run s0 steps = some (s, out, host) →
    persistentIDs host = consecIDs s0.nextID (persistentIDs host).length
  ∧ s.nextID = s0.nextID + (persistentIDs host).length
  ∧ (∀ id cb, HostEvent.startObserving id cb ∈ host →
      (cb.oneTime = true ↔ id = 0)) := by
  induction steps with
  | nil =>
      intro s0 s out host hn h
      simp only [run, Option.some.injEq, Prod.mk.injEq] at h
      obtain ⟨hs, -, hh⟩ := h
      subst hh; subst hs
      exact ⟨rfl, rfl, by intro id cb hmem; simp at hmem⟩
  | cons st rest ih =>
      intro s0 s out host hn h
      cases hstep : step s0 st with
      | none => simp [run, hstep] at h
      | some r =>
          obtain ⟨s1, out1, host1⟩ := r
          cases hrun : run s1 rest with
          | none => simp [run, hstep, hrun] at h
          | some r2 =>
              obtain ⟨s2, out2, host2⟩ := r2
              simp only [run, hstep, hrun, Option.some.injEq,
                Prod.mk.injEq] at h
              obtain ⟨hs, -, hh⟩ := h
              subst hh; subst hs
              obtain ⟨hel, hid⟩ :=
                step_host_events s0 st s1 out1 host1 hn hstep
              have hn1 : 1 ≤ s1.nextID := by
                rcases hel with ⟨-, he⟩ | ⟨-, he⟩ <;> omega
              obtain ⟨ih1, ih2, ih3⟩ := ih s1 s2 out2 host2 hn1 hrun
              have hmemtot : ∀ id cb,
                  HostEvent.startObserving id cb ∈ host1 ++ host2 →
                  (cb.oneTime = true ↔ id = 0) := by
                intro id cb hmem
                rcases List.mem_append.mp hmem with hmem | hmem
                · exact hid id cb hmem
                · exact ih3 id cb hmem
              rcases hel with ⟨hp, he⟩ | ⟨hp, he⟩
              · rw [persistentIDs_append, hp, List.nil_append]
                rw [he] at ih1 ih2
                exact ⟨ih1, ih2, hmemtot⟩
              · rw [persistentIDs_append, hp]
                rw [he] at ih1 ih2
                refine ⟨?_, ?_, hmemtot⟩
                · simp only [List.cons_append, List.nil_append,
                    List.length_cons, consecIDs]
                  exact congrArg _ ih1
                · simp only [List.cons_append, List.nil_append,
                    List.length_cons]
                  omega

/-- Claim C6: over any run of one server instance from its initial state,
the persistent observer IDs assigned by successful start-observing
registrations are, in order, the consecutive integers starting at 1 (so
the first registration receives 1, each later one an ID strictly greater
than all previously assigned ones, and no ID is ever assigned twice within
the process lifetime, even after the observer that held it stops observing
or disconnects), every assigned persistent ID is positive, and the ID 0 is
assigned exactly to the one-time registrations created by show-menu. -/
theorem persistent_observer_ids_monotone_never_reused
    (steps : List Step) (s : SState) (out : List (Nat × EventMsg))
    (host : List HostEvent)
    (h : run initState steps = some (s, out, host)) :
    persistentIDs host = consecIDs 1 (persistentIDs host).length
  ∧ (persistentIDs host).Pairwise (· < ·)
  ∧ (∀ x ∈ persistentIDs host, 1 ≤ x)
  ∧ (∀ id cb, HostEvent.startObserving id cb ∈ host →
      (cb.oneTime = true ↔ id = 0)) := by
  obtain ⟨h1, -, h3⟩ :=
    run_persistent_general steps initState s out host (by decide) h
  refine ⟨h1, ?_, ?_, h3⟩
  · rw [h1]; exact consecIDs_pairwise 1 _
  · intro x hx
    rw [h1] at hx
    exact consecIDs_mem_le hx

/-- A trace with three observer clients: the first two register, the first
disconnects, and a third registers afterwards. -/
def c6Trace : List Step :=
  [.connect 0, .recv 0 (.valid .startObserving),
   .connect 1, .recv 1 (.valid .startObserving),
   .close 0,
   .connect 2, .recv 2 (.valid .startObserving)]

/-- The host events emitted along `c6Trace`: IDs 1, 2 and 3 are assigned in
order and ID 1 is not reused after its holder disconnects. -/
def c6Host : List HostEvent :=
  [.startObserving 1 ⟨0, false⟩, .startObserving 2 ⟨1, false⟩,
   .stopObserving 1, .startObserving 3 ⟨2, false⟩]

/-- The server state reached by `c6Trace`. -/
def c6State : SState :=
  { nextID := 4, conns := [(1, 2), (2, 3)],
    issued := [⟨0, false⟩, ⟨1, false⟩, ⟨2, false⟩] }

theorem persistent_observer_ids_monotone_never_reused_witness :
    persistentIDs c6Host = consecIDs 1 (persistentIDs c6Host).length
  ∧ (persistentIDs c6Host).Pairwise (· < ·)
  ∧ (∀ x ∈ persistentIDs c6Host, 1 ≤ x)
  ∧ (∀ id cb, HostEvent.startObserving id cb ∈ c6Host →
      (cb.oneTime = true ↔ id = 0)) :=
  persistent_observer_ids_monotone_never_reused c6Trace c6State [] c6Host rfl

/-- Claim C10: in the server's 'listening' handler, a failing write of the
discovery file ipc-info.json still resolves the init promise (the error is
only logged) and leaves no discovery record, so the server can be running
and accepting connections while no valid discovery record exists; a
successful write records the port and API version 1. -/
theorem init_resolves_despite_write_failure (port : Nat) :
    initOnListening port false = { resolved := true, infoWritten := none }
  ∧ initOnListening port true =
      { resolved := true, infoWritten := some (port, cAPIVersion) } :=
  ⟨rfl, rfl⟩

end KandoIPC
